import Mathlib

/-!
# Verification of the gesture-shooter game core

A shallow embedding, over `ℚ` and `ℤ`, of the stateful game core of the
gesture-shooter repository: the `Target` entity (`targets.py`), the
movement filter (`hand_tracker.py`), and the `GameEngine` hit resolution,
ammo/reload state machine, difficulty escalation, and effect subsystems
(`game_engine.py`).  Python floats are modelled as rationals, Python ints
as integers, wall-clock reads as explicit `now` parameters, and random
draws as explicit parameters.  Sound playback is modelled as an event log.
-/

namespace GestureShooter

/-- Python `round` on a rational: round-half-to-even (banker's rounding),
as Python 3's builtin `round` behaves on floats. -/
def pyRound (q : ℚ) : ℤ :=
  let f := Rat.floor q
  let r := q - (f : ℚ)
  if r < 1/2 then f
  else if 1/2 < r then f + 1
  else if f % 2 = 0 then f else f + 1

/-- Python `int()` on a rational: truncation toward zero. -/
def pyInt (q : ℚ) : ℤ := if 0 ≤ q then Rat.floor q else Rat.ceil q

/-- The three target types of `targets.py` (`"static"`, `"moving"`, `"small"`). -/
inductive TargetType
  | static
  | moving
  | small
deriving DecidableEq, Repr

/-- An RGB colour triple. -/
structure Color where
  r : ℤ
  g : ℤ
  b : ℤ
deriving DecidableEq, Repr

/-- A spawned target (`Target` in `targets.py`). -/
structure Target where
  x : ℚ
  y : ℚ
  ttype : TargetType
  bounds_w : ℤ
  bounds_h : ℤ
  radius : ℤ
  color : Color
  points : ℤ
  vx : ℚ
  vy : ℚ
deriving DecidableEq, Repr

/-- `Target.__init__`.  The random draws of the constructor are explicit
parameters: `speed_draw` stands for `random.uniform(1.0, 3.0)` and
`(dir_c, dir_s)` for `(cos ang, sin ang)` of the random angle. -/
def Target.init (x y : ℤ) (ttype : TargetType) (bounds_w bounds_h : ℤ)
    (speed_mul size_mul points_mul : ℚ)
    (speed_draw dir_c dir_s : ℚ) : Target :=
  let base_radius : ℤ := if ttype ≠ TargetType.small then 40 else 20
  let speed := speed_draw * max (1/10) speed_mul
  { x := (x : ℚ)
    y := (y : ℚ)
    ttype := ttype
    bounds_w := bounds_w
    bounds_h := bounds_h
    radius := max 8 (pyRound ((base_radius : ℚ) * size_mul))
    color := match ttype with
      | TargetType.moving => ⟨255, 255, 0⟩
      | TargetType.small => ⟨255, 0, 0⟩
      | TargetType.static => ⟨0, 255, 0⟩
    points := match ttype with
      | TargetType.moving => pyRound ((20 : ℚ) * points_mul)
      | TargetType.small => pyRound ((30 : ℚ) * points_mul)
      | TargetType.static => pyRound ((10 : ℚ) * points_mul)
    vx := if ttype = TargetType.moving then dir_c * speed else 0
    vy := if ttype = TargetType.moving then dir_s * speed else 0 }

/-- `Target.update`: moving targets advance by their velocity and bounce
elastically off the play-area edges; other targets are unchanged. -/
def Target.update (t : Target) : Target :=
  if t.ttype = TargetType.moving then
    let x1 := t.x + t.vx
    let y1 := t.y + t.vy
    let w : ℚ := t.bounds_w
    let h : ℚ := t.bounds_h
    let r : ℚ := t.radius
    let xv :=
      if x1 - r < 0 then (r, t.vx * (-1))
      else if x1 + r > w then (w - r, t.vx * (-1))
      else (x1, t.vx)
    let yv :=
      if y1 - r < 0 then (r, t.vy * (-1))
      else if y1 + r > h then (h - r, t.vy * (-1))
      else (y1, t.vy)
    { t with x := xv.1, vx := xv.2, y := yv.1, vy := yv.2 }
  else t

/-- `Target.check_collision`: inclusive circle containment of an integer
aim point. -/
def Target.check_collision (t : Target) (pos : ℤ × ℤ) : Bool :=
  let dx := t.x - (pos.1 : ℚ)
  let dy := t.y - (pos.2 : ℚ)
  decide (dx * dx + dy * dy ≤ (t.radius : ℚ) * (t.radius : ℚ))

example : pyRound (15/2) = 8 := by with_unfolding_all decide
example : pyRound (13/2) = 6 := by with_unfolding_all decide
example : pyRound (5 : ℚ) = 5 := by with_unfolding_all decide
example : pyInt (-7/2) = -3 := by with_unfolding_all decide

/-- Sound cue keys of the engine's sound table. -/
inductive SoundKey
  | shot
  | hit
  | reload
  | dry
deriving DecidableEq, Repr

/-- Difficulty level names (`"Easy"`, `"Normal"`, `"Hard"`). -/
inductive Difficulty
  | easy
  | normal
  | hard
deriving DecidableEq, Repr

/-- One particle of an explosion burst (`_spawn_explosion`). -/
structure Particle where
  x : ℚ
  y : ℚ
  vx : ℚ
  vy : ℚ
  life : ℤ
  max_life : ℚ
  radius : ℤ
  color : Color
deriving DecidableEq, Repr

/-- The random draws of one particle: `(cos ang * spd, sin ang * spd)`
for the random angle and speed, plus the random life and radius. -/
structure ParticleDraw where
  vx : ℚ
  vy : ℚ
  life : ℤ
  radius : ℤ
deriving DecidableEq, Repr

/-- An explosion: a set of particles. -/
structure Explosion where
  particles : List Particle
deriving DecidableEq, Repr

/-- A shockwave ring effect. -/
structure Shockwave where
  x : ℤ
  y : ℤ
  r : ℚ
  max_r : ℚ
  life : ℤ
  max_life : ℚ
  color : Color
deriving DecidableEq, Repr

/-- A tracer line effect. -/
structure Tracer where
  start_pos : ℤ × ℤ
  end_pos : ℤ × ℤ
  life : ℤ
  max_life : ℚ
deriving DecidableEq, Repr

/-- A muzzle flash effect, expiring at wall-clock time `end_ms`. -/
structure MuzzleFlash where
  pos : ℤ × ℤ
  end_ms : ℤ
deriving DecidableEq, Repr

/-- A difficulty configuration bundle (one entry of `difficulty_levels`). -/
structure DifficultyCfg where
  spawn_interval : ℤ
  spawn_interval_min : ℤ
  max_ammo : ℤ
  shot_cooldown_ms : ℤ
  speed_mul : ℚ
  size_mul : ℚ
  points_mul : ℚ
  weights : List (TargetType × ℚ)
deriving DecidableEq, Repr

/-- The `difficulty_levels` table of `GameEngine.__init__`. -/
def difficulty_levels : Difficulty → DifficultyCfg
  | Difficulty.easy =>
    { spawn_interval := 70, spawn_interval_min := 30, max_ammo := 8,
      shot_cooldown_ms := 300, speed_mul := 85/100, size_mul := 110/100,
      points_mul := 9/10,
      weights := [(TargetType.static, 6/10), (TargetType.moving, 3/10),
                  (TargetType.small, 1/10)] }
  | Difficulty.normal =>
    { spawn_interval := 60, spawn_interval_min := 20, max_ammo := 6,
      shot_cooldown_ms := 250, speed_mul := 1, size_mul := 1,
      points_mul := 1,
      weights := [(TargetType.static, 5/10), (TargetType.moving, 35/100),
                  (TargetType.small, 15/100)] }
  | Difficulty.hard =>
    { spawn_interval := 50, spawn_interval_min := 10, max_ammo := 5,
      shot_cooldown_ms := 220, speed_mul := 125/100, size_mul := 9/10,
      points_mul := 12/10,
      weights := [(TargetType.static, 35/100), (TargetType.moving, 45/100),
                  (TargetType.small, 20/100)] }

/-- The mutable state of `GameEngine` relevant to the game-logic claims.
Wall-clock reads (`time.time()`) are passed to the operations as explicit
`now` parameters; sound playback is recorded in the `sounds` event log. -/
structure EngineState where
  screen_width : ℤ
  screen_height : ℤ
  score : ℤ
  max_ammo : ℤ
  ammo : ℤ
  reloading : Bool
  reload_time_ms : ℤ
  reload_started_at : ℚ
  targets : List Target
  spawn_timer : ℤ
  spawn_interval : ℤ
  spawn_interval_min : ℤ
  start_time : ℚ
  last_shot_time : ℤ
  shot_cooldown_ms : ℤ
  paused : Bool
  explosions : List Explosion
  muzzle_flashes : List MuzzleFlash
  shockwaves : List Shockwave
  tracers : List Tracer
  no_ammo_msg_end_ms : ℤ
  target_speed_mul : ℚ
  target_size_mul : ℚ
  points_mul : ℚ
  spawn_weights : List (TargetType × ℚ)
  sounds : List SoundKey
deriving DecidableEq, Repr

/-- `GameEngine._play_sound`: modelled as appending the cue to the event log. -/
def play_sound (key : SoundKey) (s : EngineState) : EngineState :=
  { s with sounds := s.sounds ++ [key] }

/-- `GameEngine._apply_difficulty`. -/
def apply_difficulty (level : Difficulty) (s : EngineState) : EngineState :=
  let cfg := difficulty_levels level
  { s with
    spawn_interval := cfg.spawn_interval
    spawn_interval_min := cfg.spawn_interval_min
    max_ammo := cfg.max_ammo
    ammo := cfg.max_ammo
    shot_cooldown_ms := cfg.shot_cooldown_ms
    target_speed_mul := cfg.speed_mul
    target_size_mul := cfg.size_mul
    points_mul := cfg.points_mul
    spawn_weights := cfg.weights }

/-- `GameEngine._start_reload`. -/
def start_reload (now_ms : ℚ) (s : EngineState) : EngineState :=
  if ¬ s.reloading ∧ s.ammo < s.max_ammo then
    { s with reloading := true, reload_started_at := now_ms }
  else s

/-- `GameEngine._update_reload`. -/
def update_reload (now_ms : ℚ) (s : EngineState) : EngineState :=
  if s.reloading then
    if now_ms - s.reload_started_at ≥ (s.reload_time_ms : ℚ) then
      play_sound SoundKey.reload { s with reloading := false, ammo := s.max_ammo }
    else s
  else s

/-- `GameEngine._toggle_pause`. -/
def toggle_pause (s : EngineState) : EngineState :=
  { s with paused := ¬ s.paused }

/-- `GameEngine._can_shoot`. -/
def can_shoot (now_ms : ℤ) (s : EngineState) : Bool :=
  if s.paused then false
  else if s.reloading then false
  else if s.ammo ≤ 0 then false
  else if now_ms - s.last_shot_time < s.shot_cooldown_ms then false
  else true

/-- The particle built by `_spawn_explosion` for centre `(x, y)`, colour
`color` and the given random draws. -/
def mk_particle (x y : ℤ) (color : Color) (d : ParticleDraw) : Particle :=
  { x := (x : ℚ), y := (y : ℚ), vx := d.vx, vy := d.vy,
    life := d.life, max_life := (d.life : ℚ), radius := d.radius, color := color }

/-- `GameEngine._spawn_explosion`, with the per-particle random draws as an
explicit parameter. -/
def spawn_explosion (x y : ℤ) (color : Color) (draws : List ParticleDraw)
    (s : EngineState) : EngineState :=
  { s with explosions := s.explosions ++ [⟨draws.map (mk_particle x y color)⟩] }

/-- The shockwave record built by `_spawn_shockwave`. -/
def shockwave_of (x y : ℤ) (color : Color) : Shockwave :=
  { x := x, y := y, r := 8, max_r := 90, life := 350, max_life := 350, color := color }

/-- `GameEngine._spawn_shockwave`. -/
def spawn_shockwave (x y : ℤ) (color : Color) (s : EngineState) : EngineState :=
  { s with shockwaves := s.shockwaves ++ [shockwave_of x y color] }

/-- The tracer record built by `_spawn_tracer`. -/
def tracer_of (a b : ℤ × ℤ) : Tracer :=
  { start_pos := a, end_pos := b, life := 120, max_life := 120 }

/-- `GameEngine._spawn_tracer`. -/
def spawn_tracer (a b : ℤ × ℤ) (s : EngineState) : EngineState :=
  { s with tracers := s.tracers ++ [tracer_of a b] }

/-- `GameEngine._spawn_muzzle_flash`. -/
def spawn_muzzle_flash (pos : Option (ℤ × ℤ)) (now_ms : ℤ) (s : EngineState) :
    EngineState :=
  match pos with
  | none => s
  | some p => { s with muzzle_flashes := s.muzzle_flashes ++ [⟨p, now_ms + 90⟩] }

/-- Python `list.remove`: drop the first occurrence of `x`. -/
def remove_first (x : Target) : List Target → List Target
  | [] => []
  | y :: ys => if y = x then ys else y :: remove_first x ys

/-- The loop body of `GameEngine.check_hit`: iterate over a snapshot
(`self.targets[:]`) of the live target list, and for every target hit by
the aim point, add its points, remove it from the live list, and spawn the
explosion / hit sound / shockwave / tracer effects.  `supply` provides the
random particle draws of the successive explosions. -/
def check_hit_loop (aim : ℤ × ℤ) : List Target → List (List ParticleDraw) →
    EngineState → EngineState
  | [], _, s => s
  | t :: rest, supply, s =>
    if t.check_collision aim then
      check_hit_loop aim rest supply.tail
        (spawn_tracer aim (pyInt t.x, pyInt t.y)
          (spawn_shockwave (pyInt t.x) (pyInt t.y) t.color
            (play_sound SoundKey.hit
              (spawn_explosion (pyInt t.x) (pyInt t.y) t.color (supply.headD [])
                { s with score := s.score + t.points,
                         targets := remove_first t s.targets }))))
    else
      check_hit_loop aim rest supply s

/-- `GameEngine.check_hit`: a missing aim point is a no-op; otherwise run
the hit loop over a snapshot of the live target list. -/
def check_hit (aim : Option (ℤ × ℤ)) (supply : List (List ParticleDraw))
    (s : EngineState) : EngineState :=
  match aim with
  | none => s
  | some p => check_hit_loop p s.targets supply s

/-- `GameEngine._shoot`. -/
def shoot (aim : Option (ℤ × ℤ)) (now_ms : ℤ) (supply : List (List ParticleDraw))
    (s : EngineState) : EngineState :=
  if ¬ can_shoot now_ms s then s
  else
    let s1 := { s with last_shot_time := now_ms, ammo := s.ammo - 1 }
    let s2 := spawn_muzzle_flash aim now_ms s1
    let s3 := play_sound SoundKey.shot s2
    check_hit aim supply s3

/-- `GameEngine._try_shoot`: like `_shoot` but with dry-fire feedback when
out of ammo. -/
def try_shoot (aim : Option (ℤ × ℤ)) (now_ms : ℤ) (supply : List (List ParticleDraw))
    (s : EngineState) : EngineState :=
  if s.paused ∨ s.reloading then s
  else if s.ammo ≤ 0 then
    { play_sound SoundKey.dry s with no_ammo_msg_end_ms := now_ms + 700 }
  else if now_ms - s.last_shot_time < s.shot_cooldown_ms then s
  else shoot aim now_ms supply s

/-- The accumulation loop of `GameEngine._weighted_choice`. -/
def weighted_choice_loop (r : ℚ) (fallback : TargetType) :
    ℚ → List (TargetType × ℚ) → TargetType
  | _, [] => fallback
  | acc, (name, w) :: rest =>
    if r ≤ acc + w then name else weighted_choice_loop r fallback (acc + w) rest

/-- `GameEngine._weighted_choice`, with the uniform draw `r` explicit.
The fallback (`items[-1][0]`) guards float rounding. -/
def weighted_choice (r : ℚ) (items : List (TargetType × ℚ)) : TargetType :=
  weighted_choice_loop r (items.getLastD (TargetType.static, 0)).1 0 items

/-- `GameEngine.spawn_target`, with the random draws (type-selection value
`r`, position `(x, y)`, and the constructor draws) explicit. -/
def spawn_target (r : ℚ) (x y : ℤ) (speed_draw dir_c dir_s : ℚ)
    (s : EngineState) : EngineState :=
  let ttype := weighted_choice r s.spawn_weights
  { s with targets := s.targets ++
      [Target.init x y ttype s.screen_width s.screen_height
        s.target_speed_mul s.target_size_mul s.points_mul
        speed_draw dir_c dir_s] }

/-- `GameEngine._maybe_increase_difficulty`, with the wall-clock read
(`time.time()`, in seconds) explicit. -/
def maybe_increase_difficulty (now_s : ℚ) (s : EngineState) : EngineState :=
  let elapsed := now_s - s.start_time
  let step := Rat.floor (elapsed / 20)
  let target_interval := max s.spawn_interval_min (60 - step * 5)
  if target_interval ≠ s.spawn_interval then
    { s with spawn_interval := target_interval }
  else s

/-- The spawn-and-physics section of `GameEngine.run` (the block guarded by
`if not self.paused`): advance the spawn timer, spawn a target and
re-evaluate difficulty escalation when the timer reaches the interval,
then update every target's physics. -/
def tick_spawn (now_s : ℚ) (r : ℚ) (x y : ℤ) (speed_draw dir_c dir_s : ℚ)
    (s : EngineState) : EngineState :=
  if s.paused then s
  else
    let s1 := { s with spawn_timer := s.spawn_timer + 1 }
    let s2 :=
      if s1.spawn_timer ≥ s1.spawn_interval then
        maybe_increase_difficulty now_s
          { spawn_target r x y speed_draw dir_c dir_s s1 with spawn_timer := 0 }
      else s1
    { s2 with targets := s2.targets.map Target.update }

/-- The per-particle update of `_update_explosions`. -/
def update_particle (dt_ms : ℤ) (p : Particle) : Particle :=
  { p with x := p.x + p.vx, y := p.y + p.vy,
           vx := p.vx * (98/100), vy := p.vy * (98/100),
           life := p.life - dt_ms }

/-- The list transformation of `GameEngine._update_explosions`: advance
each particle, drop dead particles, drop empty explosions. -/
def update_explosions_list (dt_ms : ℤ) (l : List Explosion) : List Explosion :=
  (l.map fun ex => ⟨(ex.particles.map (update_particle dt_ms)).filter
      fun p => p.life > 0⟩).filter fun ex => ex.particles ≠ []

/-- `GameEngine._update_explosions`. -/
def update_explosions (dt_ms : ℤ) (s : EngineState) : EngineState :=
  { s with explosions := update_explosions_list dt_ms s.explosions }

/-- The list transformation of `GameEngine._update_muzzle_flashes`: keep
the flashes that have not yet reached their wall-clock expiry. -/
def update_muzzle_flashes_list (now_ms : ℤ) (l : List MuzzleFlash) : List MuzzleFlash :=
  l.filter fun m => m.end_ms > now_ms

/-- `GameEngine._update_muzzle_flashes`. -/
def update_muzzle_flashes (now_ms : ℤ) (s : EngineState) : EngineState :=
  { s with muzzle_flashes := update_muzzle_flashes_list now_ms s.muzzle_flashes }

/-- The list transformation of `GameEngine._update_shockwaves`: grow the
ring at 180 px/sec, age it, and drop it once fully grown or expired. -/
def update_shockwaves_list (dt_ms : ℤ) (l : List Shockwave) : List Shockwave :=
  (l.map fun w => { w with r := w.r + 180 * ((dt_ms : ℚ) / 1000),
                           life := w.life - dt_ms }).filter
    fun w => ¬ (w.r ≥ w.max_r ∨ w.life ≤ 0)

/-- `GameEngine._update_shockwaves`. -/
def update_shockwaves (dt_ms : ℤ) (s : EngineState) : EngineState :=
  { s with shockwaves := update_shockwaves_list dt_ms s.shockwaves }

/-- The list transformation of `GameEngine._update_tracers`. -/
def update_tracers_list (dt_ms : ℤ) (l : List Tracer) : List Tracer :=
  (l.map fun t => { t with life := t.life - dt_ms }).filter fun t => t.life > 0

/-- `GameEngine._update_tracers`. -/
def update_tracers (dt_ms : ℤ) (s : EngineState) : EngineState :=
  { s with tracers := update_tracers_list dt_ms s.tracers }

/-- The world-update section of one `GameEngine.run` loop iteration: the
spawn/physics block (skipped while paused) followed by the four effect
updates (always executed). -/
def tick_world (dt_ms now_ms : ℤ) (now_s : ℚ) (r : ℚ) (x y : ℤ)
    (speed_draw dir_c dir_s : ℚ) (s : EngineState) : EngineState :=
  update_tracers dt_ms
    (update_shockwaves dt_ms
      (update_muzzle_flashes now_ms
        (update_explosions dt_ms
          (tick_spawn now_s r x y speed_draw dir_c dir_s s))))

/-- `MovementFilter` of `hand_tracker.py`: a bounded buffer of recent
positions (oldest first), as a deque with `maxlen` equal to the buffer size. -/
structure MovementFilter where
  buffer_size : ℕ
  buffer : List (ℤ × ℤ)
deriving DecidableEq, Repr

/-- `MovementFilter.__init__`. -/
def MovementFilter.init (buffer_size : ℤ) : MovementFilter :=
  { buffer_size := (max 1 buffer_size).toNat, buffer := [] }

/-- `MovementFilter.set_buffer_size`: clamp the requested size to at least
1; when it changes, keep only the most recent `buffer_size` samples
(`old[-buffer_size:]`). -/
def MovementFilter.set_buffer_size (buffer_size : ℤ) (f : MovementFilter) :
    MovementFilter :=
  let n := (max 1 buffer_size).toNat
  if n = f.buffer_size then f
  else { buffer_size := n, buffer := f.buffer.drop (f.buffer.length - n) }

/-- `MovementFilter.add_position`: append the sample; the deque `maxlen`
drops the oldest samples beyond `buffer_size`. -/
def MovementFilter.add_position (pos : Option (ℤ × ℤ)) (f : MovementFilter) :
    MovementFilter :=
  match pos with
  | none => f
  | some p =>
    let b := f.buffer ++ [p]
    { f with buffer := b.drop (b.length - f.buffer_size) }

/-- `MovementFilter.get_filtered_position`: the per-axis rounded mean of
the buffered samples, or `none` when the buffer is empty. -/
def MovementFilter.get_filtered_position (f : MovementFilter) :
    Option (ℤ × ℤ) :=
  if f.buffer = [] then none
  else
    some (pyRound (((f.buffer.map Prod.fst).sum : ℚ) / (f.buffer.length : ℚ)),
          pyRound (((f.buffer.map Prod.snd).sum : ℚ) / (f.buffer.length : ℚ)))

/-- The engine state after `GameEngine.__init__` (with
`_apply_difficulty("Normal", initial=True)` applied), at session start
time 0, restricted to the modelled fields. -/
def base_state : EngineState :=
  { screen_width := 1280, screen_height := 720, score := 0,
    max_ammo := 6, ammo := 6, reloading := false, reload_time_ms := 1200,
    reload_started_at := 0, targets := [], spawn_timer := 0,
    spawn_interval := 60, spawn_interval_min := 20, start_time := 0,
    last_shot_time := 0, shot_cooldown_ms := 250, paused := false,
    explosions := [], muzzle_flashes := [], shockwaves := [], tracers := [],
    no_ammo_msg_end_ms := 0, target_speed_mul := 1, target_size_mul := 1,
    points_mul := 1,
    spawn_weights := (difficulty_levels Difficulty.normal).weights,
    sounds := [] }

/-- A static target at (100, 100) with default multipliers (radius 40,
10 points). -/
def sample_target : Target :=
  Target.init 100 100 TargetType.static 1280 720 1 1 1 0 0 0

/-- Claim C7: `check_collision(p)` is true iff the squared distance from
the target centre to `p` is at most radius squared, and a point exactly at
`center + (radius, 0)` is a hit (the boundary is inclusive). -/
theorem check_collision_iff (t : Target) (p : ℤ × ℤ) (cx cy : ℤ) :
    (t.check_collision p = true ↔
      (t.x - (p.1 : ℚ)) * (t.x - (p.1 : ℚ)) + (t.y - (p.2 : ℚ)) * (t.y - (p.2 : ℚ))
        ≤ (t.radius : ℚ) * (t.radius : ℚ)) ∧
    (t.x = (cx : ℚ) → t.y = (cy : ℚ) →
      t.check_collision (cx + t.radius, cy) = true) := by
  constructor
  · simp [Target.check_collision]
  · intro hx hy
    simp only [Target.check_collision, hx, hy, decide_eq_true_eq]
    push_cast
    ring_nf
    simp

/-- Witness for C7: the boundary point of a radius-40 target at (100, 100)
is a hit. -/
theorem check_collision_iff_witness :
    sample_target.x = ((100 : ℤ) : ℚ) ∧
    sample_target.check_collision (100 + sample_target.radius, 100) = true :=
  ⟨by with_unfolding_all decide,
   (check_collision_iff sample_target (0, 0) 100 100).2
     (by with_unfolding_all decide) (by with_unfolding_all decide)⟩

/-- Claim C9: feeding (0,0), (9,6), (6,12) into a window-3 movement filter
yields the filtered position (5,6) (per-axis rounded mean), and shrinking
the window to 2 retains exactly the most recent 2 samples for subsequent
averaging. -/
theorem movement_filter_spec :
    (let f := (((MovementFilter.init 3).add_position
        (some (0, 0))).add_position (some (9, 6))).add_position (some (6, 12))
     f.get_filtered_position = some (5, 6) ∧
     (f.set_buffer_size 2).buffer = [(9, 6), (6, 12)] ∧
     (f.set_buffer_size 2).get_filtered_position = some (8, 9)) := by
  with_unfolding_all decide

/-- Claim C6: a shoot attempt with no ammo (not paused, not reloading)
plays the dry cue, arms the no-ammo message until `now + 700` (a time not
before the attempt), and changes nothing else. -/
theorem dry_fire_spec (s : EngineState) (now_ms : ℤ) (aim : Option (ℤ × ℤ))
    (supply : List (List ParticleDraw)) (hp : s.paused = false)
    (hr : s.reloading = false) (ha : s.ammo = 0) :
    try_shoot aim now_ms supply s =
      { s with sounds := s.sounds ++ [SoundKey.dry],
               no_ammo_msg_end_ms := now_ms + 700 } ∧
    now_ms ≤ now_ms + 700 := by
  refine ⟨?_, by omega⟩
  simp [try_shoot, hp, hr, ha, play_sound]

/-- The base state with an empty magazine. -/
def dry_state : EngineState := { base_state with ammo := 0 }

/-- Witness for C6 at a concrete out-of-ammo state. -/
theorem dry_fire_spec_witness :
    try_shoot none 1000 [] dry_state =
      { dry_state with sounds := dry_state.sounds ++ [SoundKey.dry],
                       no_ammo_msg_end_ms := 1000 + 700 } ∧
    (1000 : ℤ) ≤ 1000 + 700 :=
  dry_fire_spec dry_state 1000 none [] rfl rfl rfl

/-- The base state with no ammo and a shot fired 100 ms before time 1000,
well inside the 250 ms cooldown. -/
def cooldown_dry_state : EngineState :=
  { base_state with ammo := 0, last_shot_time := 900 }

set_option maxRecDepth 4000 in
/-- Counterexample to C2: a shoot attempt within the cooldown window (not
paused, not reloading) but with ammo 0 is NOT silently ignored — the ammo
check precedes the cooldown check, so the dry cue plays and the no-ammo
message is armed. -/
theorem cooldown_dry_counterexample :
    cooldown_dry_state.paused = false ∧
    cooldown_dry_state.reloading = false ∧
    (1000 : ℤ) - cooldown_dry_state.last_shot_time
      < cooldown_dry_state.shot_cooldown_ms ∧
    (try_shoot none 1000 [] cooldown_dry_state).sounds = [SoundKey.dry] ∧
    (try_shoot none 1000 [] cooldown_dry_state).no_ammo_msg_end_ms = 1700 ∧
    try_shoot none 1000 [] cooldown_dry_state ≠ cooldown_dry_state := by
  with_unfolding_all decide

/-- Claim C2 (amended): a shoot attempt within `shot_cooldown` ms of the
last successful shot, while not paused, not reloading, and with ammo
remaining, is silently ignored: the state is returned unchanged. -/
theorem cooldown_silent_ignore (s : EngineState) (now_ms : ℤ)
    (aim : Option (ℤ × ℤ)) (supply : List (List ParticleDraw))
    (hp : s.paused = false) (hr : s.reloading = false) (ha : 0 < s.ammo)
    (hc : now_ms - s.last_shot_time < s.shot_cooldown_ms) :
    try_shoot aim now_ms supply s = s := by
  rw [try_shoot]
  rw [if_neg (by simp [hp, hr])]
  rw [if_neg (by omega)]
  rw [if_pos hc]

/-- The base state 100 ms after a successful shot, magazine full. -/
def cooldown_full_state : EngineState := { base_state with last_shot_time := 900 }

/-- Witness for the amended C2 at a concrete in-cooldown state. -/
theorem cooldown_silent_ignore_witness :
    cooldown_full_state.paused = false ∧
    (0 : ℤ) < cooldown_full_state.ammo ∧
    (1000 : ℤ) - cooldown_full_state.last_shot_time
      < cooldown_full_state.shot_cooldown_ms ∧
    try_shoot none 1000 [] cooldown_full_state = cooldown_full_state :=
  ⟨rfl, by decide, by decide,
   cooldown_silent_ignore cooldown_full_state 1000 none [] rfl rfl
     (by decide) (by decide)⟩

/-- A moving target built with `speed_mul = 0`, speed draw 1, and
direction (1, 0). -/
def zero_mul_moving : Target :=
  Target.init 0 0 TargetType.moving 1280 720 0 1 1 1 1 0

/-- Counterexample to C4: with `speed_mul = 0` the claim's velocity
magnitude `uniform[1,3] × speed_mul` would be 0, but the constructor
clamps the multiplier to `max(0.1, speed_mul)`, giving squared magnitude
1/100 at speed draw 1. -/
theorem moving_speed_counterexample :
    zero_mul_moving.vx * zero_mul_moving.vx +
      zero_mul_moving.vy * zero_mul_moving.vy = 1/100 ∧
    ((1 : ℚ) * 0) * ((1 : ℚ) * 0) ≠ (1/100 : ℚ) := by
  with_unfolding_all decide

/-- Claim C4 (amended): a Moving target has radius
`max(8, round(40 × size_mul))`, point value `round(20 × points_mul)`, and
a velocity along the drawn unit direction whose squared magnitude is
`(draw × max(0.1, speed_mul))²` with the magnitude draw uniform in
[1.0, 3.0]. -/
theorem moving_target_init_spec (x y bw bh : ℤ)
    (speed_mul size_mul points_mul speed_draw dir_c dir_s : ℚ)
    (hdir : dir_c * dir_c + dir_s * dir_s = 1) :
    (Target.init x y TargetType.moving bw bh speed_mul size_mul points_mul
        speed_draw dir_c dir_s).radius = max 8 (pyRound (40 * size_mul)) ∧
    (Target.init x y TargetType.moving bw bh speed_mul size_mul points_mul
        speed_draw dir_c dir_s).points = pyRound (20 * points_mul) ∧
    (Target.init x y TargetType.moving bw bh speed_mul size_mul points_mul
          speed_draw dir_c dir_s).vx *
        (Target.init x y TargetType.moving bw bh speed_mul size_mul points_mul
          speed_draw dir_c dir_s).vx +
      (Target.init x y TargetType.moving bw bh speed_mul size_mul points_mul
          speed_draw dir_c dir_s).vy *
        (Target.init x y TargetType.moving bw bh speed_mul size_mul points_mul
          speed_draw dir_c dir_s).vy =
      (speed_draw * max (1/10) speed_mul) * (speed_draw * max (1/10) speed_mul) := by
  refine ⟨by simp [Target.init], by simp [Target.init], ?_⟩
  simp only [Target.init, reduceIte, reduceCtorEq, ne_eq, not_false_eq_true]
  calc (dir_c * (speed_draw * max (1/10) speed_mul)) *
          (dir_c * (speed_draw * max (1/10) speed_mul)) +
        (dir_s * (speed_draw * max (1/10) speed_mul)) *
          (dir_s * (speed_draw * max (1/10) speed_mul))
      = (dir_c * dir_c + dir_s * dir_s) *
          ((speed_draw * max (1/10) speed_mul) *
            (speed_draw * max (1/10) speed_mul)) := by ring
    _ = (speed_draw * max (1/10) speed_mul) *
          (speed_draw * max (1/10) speed_mul) := by rw [hdir]; ring

/-- Witness for the amended C4 with direction (1, 0), draw 2, and all
multipliers 1. -/
theorem moving_target_init_spec_witness :
    ((1 : ℚ) * 1 + 0 * 0 = 1) ∧
    ((Target.init 0 0 TargetType.moving 1280 720 1 1 1 2 1 0).radius
        = max 8 (pyRound (40 * 1)) ∧
      (Target.init 0 0 TargetType.moving 1280 720 1 1 1 2 1 0).points
        = pyRound (20 * 1) ∧
      (Target.init 0 0 TargetType.moving 1280 720 1 1 1 2 1 0).vx *
          (Target.init 0 0 TargetType.moving 1280 720 1 1 1 2 1 0).vx +
        (Target.init 0 0 TargetType.moving 1280 720 1 1 1 2 1 0).vy *
          (Target.init 0 0 TargetType.moving 1280 720 1 1 1 2 1 0).vy =
        ((2 : ℚ) * max (1/10) 1) * ((2 : ℚ) * max (1/10) 1)) :=
  ⟨by norm_num,
   moving_target_init_spec 0 0 1280 720 1 1 1 2 1 0 (by norm_num)⟩

/-- Claim C8: non-moving targets never move; a moving target advances by
its velocity when no boundary is crossed, and on crossing an edge
(accounting for radius) it is clamped to that edge with the corresponding
velocity component sign-flipped at unchanged magnitude; in particular at
`x = radius - ε` moving left the update yields `x = radius` and `vx`
flipped, and analogously for the right, top, and bottom edges. -/
theorem target_update_spec (t : Target) (ε : ℚ) :
    (t.ttype ≠ TargetType.moving → t.update = t) ∧
    (t.ttype = TargetType.moving → 0 ≤ ε →
      ((0 ≤ t.x + t.vx - (t.radius : ℚ) →
          t.x + t.vx + (t.radius : ℚ) ≤ (t.bounds_w : ℚ) →
          (t.update).x = t.x + t.vx ∧ (t.update).vx = t.vx) ∧
       (t.vx < 0 → t.x = (t.radius : ℚ) - ε →
          (t.update).x = (t.radius : ℚ) ∧ (t.update).vx = -t.vx) ∧
       (0 < t.vx → 2 * (t.radius : ℚ) ≤ (t.bounds_w : ℚ) →
          t.x = (t.bounds_w : ℚ) - (t.radius : ℚ) + ε →
          (t.update).x = (t.bounds_w : ℚ) - (t.radius : ℚ) ∧
          (t.update).vx = -t.vx) ∧
       (t.vy < 0 → t.y = (t.radius : ℚ) - ε →
          (t.update).y = (t.radius : ℚ) ∧ (t.update).vy = -t.vy) ∧
       (0 < t.vy → 2 * (t.radius : ℚ) ≤ (t.bounds_h : ℚ) →
          t.y = (t.bounds_h : ℚ) - (t.radius : ℚ) + ε →
          (t.update).y = (t.bounds_h : ℚ) - (t.radius : ℚ) ∧
          (t.update).vy = -t.vy))) := by
  constructor
  · intro h
    simp [Target.update, h]
  · intro hm hε
    refine ⟨?_, ?_, ?_, ?_, ?_⟩
    · intro h1 h2
      simp only [Target.update, if_pos hm]
      rw [if_neg (by linarith), if_neg (by linarith)]
      constructor <;> simp
    · intro hv hx
      simp only [Target.update, if_pos hm]
      rw [if_pos (by rw [hx]; linarith)]
      constructor <;> simp
    · intro hv hw hx
      simp only [Target.update, if_pos hm]
      rw [if_neg (by rw [hx]; push_neg; linarith), if_pos (by rw [hx]; linarith)]
      constructor <;> simp
    · intro hv hy
      simp only [Target.update, if_pos hm]
      rw [if_pos (by rw [hy]; linarith)]
      constructor <;> simp
    · intro hv hh hy
      simp only [Target.update, if_pos hm]
      rw [if_neg (by rw [hy]; push_neg; linarith), if_pos (by rw [hy]; linarith)]
      constructor <;> simp

/-- A moving target near the left edge, moving left: the configuration of
the repository's own bounce test (radius 12 at x = 10, vx = -5). -/
def left_edge_target : Target :=
  { x := 10, y := 100, ttype := TargetType.moving, bounds_w := 200,
    bounds_h := 200, radius := 12, color := ⟨255, 255, 0⟩, points := 20,
    vx := -5, vy := 0 }

/-- Witness for C8: the left-edge bounce at a concrete moving target, with
`ε = 2`. -/
theorem target_update_spec_witness :
    (left_edge_target.ttype = TargetType.moving ∧
      (0 : ℚ) ≤ 2 ∧ left_edge_target.vx < 0 ∧
      left_edge_target.x = (left_edge_target.radius : ℚ) - 2) ∧
    ((left_edge_target.update).x = (left_edge_target.radius : ℚ) ∧
      (left_edge_target.update).vx = -left_edge_target.vx) :=
  ⟨⟨rfl, by norm_num, by norm_num [left_edge_target],
      by norm_num [left_edge_target]⟩,
   ((target_update_spec left_edge_target 2).2 rfl (by norm_num)).2.1
     (by norm_num [left_edge_target]) (by norm_num [left_edge_target])⟩

/-- The hit loop never touches the ammo machine: ammo, max ammo,
reloading, and paused are preserved. -/
lemma check_hit_loop_preserves (p : ℤ × ℤ) (pending : List Target) :
    ∀ (supply : List (List ParticleDraw)) (s : EngineState),
      (check_hit_loop p pending supply s).ammo = s.ammo ∧
      (check_hit_loop p pending supply s).max_ammo = s.max_ammo ∧
      (check_hit_loop p pending supply s).reloading = s.reloading ∧
      (check_hit_loop p pending supply s).paused = s.paused := by
  induction pending with
  | nil => intro supply s; simp [check_hit_loop]
  | cons t rest ih =>
    intro supply s
    rw [check_hit_loop]
    split
    · simpa [spawn_explosion, play_sound, spawn_shockwave, spawn_tracer]
        using ih supply.tail _
    · exact ih supply s

/-- `check_hit` preserves the ammo machine. -/
lemma check_hit_preserves (aim : Option (ℤ × ℤ))
    (supply : List (List ParticleDraw)) (s : EngineState) :
    (check_hit aim supply s).ammo = s.ammo ∧
    (check_hit aim supply s).max_ammo = s.max_ammo ∧
    (check_hit aim supply s).reloading = s.reloading ∧
    (check_hit aim supply s).paused = s.paused := by
  cases aim with
  | none => exact ⟨rfl, rfl, rfl, rfl⟩
  | some p => exact check_hit_loop_preserves p s.targets supply s

/-- `_spawn_muzzle_flash` preserves the ammo machine. -/
lemma spawn_muzzle_flash_preserves (aim : Option (ℤ × ℤ)) (now_ms : ℤ)
    (s : EngineState) :
    (spawn_muzzle_flash aim now_ms s).ammo = s.ammo ∧
    (spawn_muzzle_flash aim now_ms s).max_ammo = s.max_ammo := by
  cases aim <;> simp [spawn_muzzle_flash]

/-- The ammo invariant of the spec: the magazine holds between 0 and
`max_ammo` rounds. -/
def ammo_inv (s : EngineState) : Prop := 0 ≤ s.ammo ∧ s.ammo ≤ s.max_ammo

/-- A successful shot decrements ammo by exactly one and preserves
`max_ammo`. -/
lemma shoot_ammo (aim : Option (ℤ × ℤ)) (now_ms : ℤ)
    (supply : List (List ParticleDraw)) (s : EngineState)
    (h : can_shoot now_ms s = true) :
    (shoot aim now_ms supply s).ammo = s.ammo - 1 ∧
    (shoot aim now_ms supply s).max_ammo = s.max_ammo := by
  rw [shoot, if_neg (by simp [h])]
  have h1 := check_hit_preserves aim supply
    (play_sound SoundKey.shot (spawn_muzzle_flash aim now_ms
      { s with last_shot_time := now_ms, ammo := s.ammo - 1 }))
  have h2 := spawn_muzzle_flash_preserves aim now_ms
    { s with last_shot_time := now_ms, ammo := s.ammo - 1 }
  refine ⟨?_, ?_⟩
  · rw [h1.1]; simp [play_sound, h2.1]
  · rw [h1.2.1]; simp [play_sound, h2.2]

/-- Claim C5: ammo stays in `0..max_ammo` under every operation; a reload
request is a no-op when already reloading or full; `_can_shoot` holds
exactly when not paused, not reloading, ammo positive, and the cooldown
has elapsed; and a shoot attempt decrements ammo exactly when
`_can_shoot` holds. -/
theorem ammo_machine_spec (s : EngineState) (now_ms : ℤ) (now_q : ℚ)
    (aim : Option (ℤ × ℤ)) (supply : List (List ParticleDraw))
    (level : Difficulty) :
    (ammo_inv s → ammo_inv (try_shoot aim now_ms supply s)) ∧
    (ammo_inv s → ammo_inv (start_reload now_q s)) ∧
    (ammo_inv s → ammo_inv (update_reload now_q s)) ∧
    ammo_inv (apply_difficulty level s) ∧
    (s.reloading = true ∨ s.ammo = s.max_ammo → start_reload now_q s = s) ∧
    (can_shoot now_ms s = true ↔
      (s.paused = false ∧ s.reloading = false ∧ 0 < s.ammo ∧
        s.shot_cooldown_ms ≤ now_ms - s.last_shot_time)) ∧
    (can_shoot now_ms s = false → (try_shoot aim now_ms supply s).ammo = s.ammo) ∧
    (can_shoot now_ms s = true → (try_shoot aim now_ms supply s).ammo = s.ammo - 1) := by
  have hcs_iff : can_shoot now_ms s = true ↔
      (s.paused = false ∧ s.reloading = false ∧ 0 < s.ammo ∧
        s.shot_cooldown_ms ≤ now_ms - s.last_shot_time) := by
    rw [can_shoot]
    split_ifs with h1 h2 h3 h4 <;> simp_all
  have h_true : can_shoot now_ms s = true →
      (try_shoot aim now_ms supply s).ammo = s.ammo - 1 := by
    intro h
    obtain ⟨hp, hr, ha, hc⟩ := hcs_iff.mp h
    rw [try_shoot, if_neg (by simp [hp, hr]), if_neg (by omega),
        if_neg (by omega)]
    exact (shoot_ammo aim now_ms supply s h).1
  have h_false : can_shoot now_ms s = false →
      (try_shoot aim now_ms supply s).ammo = s.ammo := by
    intro h
    rw [try_shoot]
    split_ifs with h1 h2 h3
    · rfl
    · simp [play_sound]
    · rfl
    · exfalso
      have hp : s.paused = false := by
        revert h1; cases s.paused <;> simp
      have hr : s.reloading = false := by
        revert h1; cases s.reloading <;> simp
      have : can_shoot now_ms s = true :=
        hcs_iff.mpr ⟨hp, hr, by omega, by omega⟩
      rw [this] at h
      exact Bool.true_eq_false.mp h
  have h_max : (try_shoot aim now_ms supply s).max_ammo = s.max_ammo := by
    rw [try_shoot]
    split_ifs with h1 h2 h3
    · rfl
    · simp [play_sound]
    · rfl
    · have hp : s.paused = false := by
        revert h1; cases s.paused <;> simp
      have hr : s.reloading = false := by
        revert h1; cases s.reloading <;> simp
      exact (shoot_ammo aim now_ms supply s
        (hcs_iff.mpr ⟨hp, hr, by omega, by omega⟩)).2
  refine ⟨?_, ?_, ?_, ?_, ?_, hcs_iff, h_false, h_true⟩
  · intro hInv
    simp only [ammo_inv] at hInv ⊢
    cases hb : can_shoot now_ms s with
    | false => rw [h_false hb, h_max]; omega
    | true =>
      obtain ⟨-, -, ha, -⟩ := hcs_iff.mp hb
      rw [h_true hb, h_max]
      omega
  · intro hInv
    simp only [ammo_inv] at hInv ⊢
    rw [start_reload]
    split_ifs <;> simpa using hInv
  · intro hInv
    simp only [ammo_inv] at hInv ⊢
    rw [update_reload]
    split_ifs
    · exact ⟨le_trans hInv.1 hInv.2, le_refl _⟩
    · exact hInv
    · exact hInv
  · cases level <;> simp [ammo_inv, apply_difficulty, difficulty_levels]
  · intro h
    rw [start_reload, if_neg]
    rintro ⟨h1, h2⟩
    rcases h with h | h
    · rw [h] at h1; exact h1 rfl
    · omega

/-- Witness for C5 at the initial Normal-difficulty state and attempt
time 1000. -/
theorem ammo_machine_spec_witness :
    ammo_inv base_state ∧
    ammo_inv (try_shoot none 1000 [] base_state) ∧
    (try_shoot none 1000 [] base_state).ammo = base_state.ammo - 1 :=
  ⟨⟨by decide, by decide⟩,
   (ammo_machine_spec base_state 1000 0 none [] Difficulty.normal).1
     ⟨by decide, by decide⟩,
   (ammo_machine_spec base_state 1000 0 none []
     Difficulty.normal).2.2.2.2.2.2.2 (by decide)⟩

/-- `_maybe_increase_difficulty` always leaves the spawn interval equal to
`max(spawn_interval_min, 60 - floor(elapsed / 20) * 5)`, and touches no
other field. -/
lemma maybe_increase_fields (now_s : ℚ) (st : EngineState) :
    (maybe_increase_difficulty now_s st).spawn_interval =
      max st.spawn_interval_min (60 - Rat.floor ((now_s - st.start_time) / 20) * 5) ∧
    (maybe_increase_difficulty now_s st).spawn_timer = st.spawn_timer ∧
    (maybe_increase_difficulty now_s st).targets = st.targets := by
  simp only [maybe_increase_difficulty]
  split_ifs with h
  · exact ⟨rfl, rfl, rfl⟩
  · exact ⟨(not_not.mp h).symm, rfl, rfl⟩

/-- Claim C3: exactly when a target is spawned (the spawn timer reaches
the interval on an unpaused tick), the effective spawn interval is
recomputed as `max(spawn_interval_min, 60 - floor(elapsed / 20) * 5)`;
on a tick without a spawn — and on any paused tick — the interval is not
recomputed. -/
theorem difficulty_escalation_spec (s : EngineState) (now_s r : ℚ) (x y : ℤ)
    (sd dc ds : ℚ) :
    (s.paused = false → s.spawn_interval ≤ s.spawn_timer + 1 →
      (tick_spawn now_s r x y sd dc ds s).spawn_interval =
        max s.spawn_interval_min
          (60 - Rat.floor ((now_s - s.start_time) / 20) * 5) ∧
      (tick_spawn now_s r x y sd dc ds s).spawn_timer = 0) ∧
    (s.paused = false → s.spawn_timer + 1 < s.spawn_interval →
      (tick_spawn now_s r x y sd dc ds s).spawn_interval = s.spawn_interval ∧
      (tick_spawn now_s r x y sd dc ds s).spawn_timer = s.spawn_timer + 1 ∧
      (tick_spawn now_s r x y sd dc ds s).targets =
        s.targets.map Target.update) ∧
    (s.paused = true → tick_spawn now_s r x y sd dc ds s = s) := by
  refine ⟨?_, ?_, ?_⟩
  · intro hp hc
    simp only [tick_spawn, ge_iff_le]
    rw [if_neg (by simp [hp]), if_pos hc]
    have h := maybe_increase_fields now_s
      { spawn_target r x y sd dc ds { s with spawn_timer := s.spawn_timer + 1 }
          with spawn_timer := 0 }
    exact ⟨h.1, h.2.1⟩
  · intro hp hc
    simp only [tick_spawn, ge_iff_le]
    rw [if_neg (by simp [hp]), if_neg (by omega)]
    simp
  · intro hp
    simp [tick_spawn, hp]

/-- The base state one frame before a spawn (timer 59 of 60). -/
def spawn_tick_state : EngineState := { base_state with spawn_timer := 59 }

/-- Witness for C3: at session second 30, a spawning tick recomputes the
interval to `max(20, 60 - 1*5) = 55`. -/
theorem difficulty_escalation_spec_witness :
    spawn_tick_state.paused = false ∧
    spawn_tick_state.spawn_interval ≤ spawn_tick_state.spawn_timer + 1 ∧
    (tick_spawn 30 0 100 100 1 1 0 spawn_tick_state).spawn_interval =
      max spawn_tick_state.spawn_interval_min
        (60 - Rat.floor ((30 - spawn_tick_state.start_time) / 20) * 5) :=
  ⟨rfl, by decide,
   ((difficulty_escalation_spec spawn_tick_state 30 0 100 100 1 1 0).1
     rfl (by decide)).1⟩

/-- Every explosion surviving `_update_explosions` is nonempty and all its
particles have positive remaining life. -/
lemma mem_update_explosions_list {dt_ms : ℤ} {l : List Explosion} {e : Explosion}
    (he : e ∈ update_explosions_list dt_ms l) :
    e.particles ≠ [] ∧ ∀ q ∈ e.particles, 0 < q.life := by
  rw [update_explosions_list, List.mem_filter] at he
  obtain ⟨hmap, hne⟩ := he
  rw [List.mem_map] at hmap
  obtain ⟨ex, -, rfl⟩ := hmap
  refine ⟨by simpa using hne, ?_⟩
  intro q hq
  simp only [List.mem_filter] at hq
  simpa using hq.2

/-- Every muzzle flash surviving `_update_muzzle_flashes` has not yet
reached its expiry time. -/
lemma mem_update_muzzle_flashes_list {now_ms : ℤ} {l : List MuzzleFlash}
    {m : MuzzleFlash} (hm : m ∈ update_muzzle_flashes_list now_ms l) :
    now_ms < m.end_ms := by
  rw [update_muzzle_flashes_list, List.mem_filter] at hm
  simpa using hm.2

/-- Every shockwave surviving `_update_shockwaves` is alive and not fully
grown. -/
lemma mem_update_shockwaves_list {dt_ms : ℤ} {l : List Shockwave}
    {w : Shockwave} (hw : w ∈ update_shockwaves_list dt_ms l) :
    0 < w.life ∧ w.r < w.max_r := by
  rw [update_shockwaves_list, List.mem_filter] at hw
  have h2 := hw.2
  simp only [decide_eq_true_eq, not_or, not_le, ge_iff_le] at h2
  exact ⟨h2.2, h2.1⟩

/-- Every tracer surviving `_update_tracers` has positive remaining life. -/
lemma mem_update_tracers_list {dt_ms : ℤ} {l : List Tracer} {tr : Tracer}
    (htr : tr ∈ update_tracers_list dt_ms l) : 0 < tr.life := by
  rw [update_tracers_list, List.mem_filter] at htr
  simpa using htr.2

/-- Claim C10: on a paused tick, the spawn timer, spawn interval, and live
target set (positions and velocities included) are untouched, while the
four effect collections are still advanced by the frame's elapsed
milliseconds and expired entities are dropped. -/
theorem paused_tick_spec (dt_ms now_ms : ℤ) (now_s r : ℚ) (x y : ℤ)
    (sd dc ds : ℚ) (s : EngineState) (hp : s.paused = true) :
    (tick_world dt_ms now_ms now_s r x y sd dc ds s).spawn_timer = s.spawn_timer ∧
    (tick_world dt_ms now_ms now_s r x y sd dc ds s).spawn_interval = s.spawn_interval ∧
    (tick_world dt_ms now_ms now_s r x y sd dc ds s).targets = s.targets ∧
    (tick_world dt_ms now_ms now_s r x y sd dc ds s).explosions =
      update_explosions_list dt_ms s.explosions ∧
    (tick_world dt_ms now_ms now_s r x y sd dc ds s).muzzle_flashes =
      update_muzzle_flashes_list now_ms s.muzzle_flashes ∧
    (tick_world dt_ms now_ms now_s r x y sd dc ds s).shockwaves =
      update_shockwaves_list dt_ms s.shockwaves ∧
    (tick_world dt_ms now_ms now_s r x y sd dc ds s).tracers =
      update_tracers_list dt_ms s.tracers ∧
    (∀ e ∈ (tick_world dt_ms now_ms now_s r x y sd dc ds s).explosions,
      e.particles ≠ [] ∧ ∀ q ∈ e.particles, 0 < q.life) ∧
    (∀ m ∈ (tick_world dt_ms now_ms now_s r x y sd dc ds s).muzzle_flashes,
      now_ms < m.end_ms) ∧
    (∀ w ∈ (tick_world dt_ms now_ms now_s r x y sd dc ds s).shockwaves,
      0 < w.life ∧ w.r < w.max_r) ∧
    (∀ tr ∈ (tick_world dt_ms now_ms now_s r x y sd dc ds s).tracers,
      0 < tr.life) := by
  have ht : tick_spawn now_s r x y sd dc ds s = s := by
    simp [tick_spawn, hp]
  have hw : tick_world dt_ms now_ms now_s r x y sd dc ds s =
      update_tracers dt_ms (update_shockwaves dt_ms
        (update_muzzle_flashes now_ms (update_explosions dt_ms s))) := by
    rw [tick_world, ht]
  rw [hw]
  refine ⟨rfl, rfl, rfl, rfl, rfl, rfl, rfl, ?_, ?_, ?_, ?_⟩
  · intro e he
    exact mem_update_explosions_list
      (show e ∈ update_explosions_list dt_ms s.explosions from he)
  · intro m hm
    exact mem_update_muzzle_flashes_list
      (show m ∈ update_muzzle_flashes_list now_ms s.muzzle_flashes from hm)
  · intro w hwm
    exact mem_update_shockwaves_list
      (show w ∈ update_shockwaves_list dt_ms s.shockwaves from hwm)
  · intro tr htr
    exact mem_update_tracers_list
      (show tr ∈ update_tracers_list dt_ms s.tracers from htr)

/-- A paused state carrying one live target and one effect of each kind. -/
def paused_fx_state : EngineState :=
  { base_state with
    paused := true,
    targets := [sample_target],
    spawn_timer := 30,
    tracers := [tracer_of (0, 0) (50, 50)],
    shockwaves := [shockwave_of 10 10 ⟨255, 255, 0⟩],
    muzzle_flashes := [⟨(5, 5), 2000⟩],
    explosions := [⟨[mk_particle 10 10 ⟨0, 255, 0⟩ ⟨1, 1, 300, 3⟩]⟩] }

/-- Witness for C10 at a concrete paused state, frame delta 16 ms. -/
theorem paused_tick_spec_witness :
    paused_fx_state.paused = true ∧
    (tick_world 16 1000 2 0 100 100 1 1 0 paused_fx_state).spawn_timer =
      paused_fx_state.spawn_timer ∧
    (tick_world 16 1000 2 0 100 100 1 1 0 paused_fx_state).targets =
      paused_fx_state.targets ∧
    (tick_world 16 1000 2 0 100 100 1 1 0 paused_fx_state).tracers =
      update_tracers_list 16 paused_fx_state.tracers :=
  ⟨rfl,
   (paused_tick_spec 16 1000 2 0 100 100 1 1 0 paused_fx_state rfl).1,
   (paused_tick_spec 16 1000 2 0 100 100 1 1 0 paused_fx_state rfl).2.2.1,
   (paused_tick_spec 16 1000 2 0 100 100 1 1 0 paused_fx_state rfl).2.2.2.2.2.2.1⟩

/-- `list.remove` drops exactly the marked occurrence when the element does
not occur earlier. -/
lemma remove_first_append_of_not_mem {x : Target} :
    ∀ {acc : List Target}, x ∉ acc → ∀ (rest : List Target),
      remove_first x (acc ++ x :: rest) = acc ++ rest := by
  intro acc
  induction acc with
  | nil => intro _ rest; simp [remove_first]
  | cons a as ih =>
    intro hx rest
    have hax : ¬ a = x := by
      rintro rfl; exact hx (List.mem_cons_self a as)
    show remove_first x (a :: (as ++ x :: rest)) = a :: (as ++ rest)
    simp only [remove_first]
    rw [if_neg hax]
    exact congrArg (List.cons a)
      (ih (fun h => hx (List.mem_cons_of_mem a h)) rest)

/-- The composite state change of one hit in the `check_hit` loop, as one
flat record update. -/
lemma hit_update_fields (t : Target) (p : ℤ × ℤ) (draws : List ParticleDraw)
    (s : EngineState) :
    spawn_tracer p (pyInt t.x, pyInt t.y)
      (spawn_shockwave (pyInt t.x) (pyInt t.y) t.color
        (play_sound SoundKey.hit
          (spawn_explosion (pyInt t.x) (pyInt t.y) t.color draws
            { s with
              score := s.score + t.points,
              targets := remove_first t s.targets }))) =
    { s with
      score := s.score + t.points,
      targets := remove_first t s.targets,
      explosions := s.explosions ++
        [⟨draws.map (mk_particle (pyInt t.x) (pyInt t.y) t.color)⟩],
      sounds := s.sounds ++ [SoundKey.hit],
      shockwaves := s.shockwaves ++ [shockwave_of (pyInt t.x) (pyInt t.y) t.color],
      tracers := s.tracers ++ [tracer_of p (pyInt t.x, pyInt t.y)] } := rfl

/-- Characterisation of the `check_hit` loop: iterating the snapshot
`pending` (with the live list being `acc ++ pending`, all targets
distinct) removes and scores exactly the hit targets of `pending`, in
order, appending one shockwave, one tracer, one hit cue, and one explosion
per hit. -/
lemma check_hit_loop_spec (p : ℤ × ℤ) :
    ∀ (pending acc : List Target) (supply : List (List ParticleDraw))
      (s : EngineState),
      s.targets = acc ++ pending → (acc ++ pending).Nodup →
      (check_hit_loop p pending supply s).targets =
        acc ++ pending.filter (fun t => ! t.check_collision p) ∧
      (check_hit_loop p pending supply s).score =
        s.score +
          ((pending.filter (fun t => t.check_collision p)).map Target.points).sum ∧
      (check_hit_loop p pending supply s).shockwaves =
        s.shockwaves ++ (pending.filter (fun t => t.check_collision p)).map
          (fun t => shockwave_of (pyInt t.x) (pyInt t.y) t.color) ∧
      (check_hit_loop p pending supply s).tracers =
        s.tracers ++ (pending.filter (fun t => t.check_collision p)).map
          (fun t => tracer_of p (pyInt t.x, pyInt t.y)) ∧
      (check_hit_loop p pending supply s).sounds =
        s.sounds ++ (pending.filter (fun t => t.check_collision p)).map
          (fun _ => SoundKey.hit) ∧
      (check_hit_loop p pending supply s).explosions.length =
        s.explosions.length +
          (pending.filter (fun t => t.check_collision p)).length := by
  intro pending
  induction pending with
  | nil => intro acc supply s hs _; simp [check_hit_loop, hs]
  | cons t rest ih =>
    intro acc supply s hs hnd
    rw [check_hit_loop]
    by_cases hcol : t.check_collision p
    · rw [if_pos hcol, hit_update_fields]
      have hnotmem : t ∉ acc := fun hmem =>
        (List.nodup_append.mp hnd).2.2 hmem (List.mem_cons_self t rest)
      have hnd5 : (acc ++ rest).Nodup :=
        List.Nodup.sublist
          (List.Sublist.append_left (List.sublist_cons_self t rest) acc) hnd
      have htg : ({ s with
          score := s.score + t.points,
          targets := remove_first t s.targets,
          explosions := s.explosions ++
            [⟨(supply.headD []).map (mk_particle (pyInt t.x) (pyInt t.y) t.color)⟩],
          sounds := s.sounds ++ [SoundKey.hit],
          shockwaves := s.shockwaves ++
            [shockwave_of (pyInt t.x) (pyInt t.y) t.color],
          tracers := s.tracers ++
            [tracer_of p (pyInt t.x, pyInt t.y)] } : EngineState).targets =
          acc ++ rest := by
        show remove_first t s.targets = acc ++ rest
        rw [hs]
        exact remove_first_append_of_not_mem hnotmem rest
      obtain ⟨ih1, ih2, ih3, ih4, ih5, ih6⟩ := ih acc supply.tail _ htg hnd5
      rw [@List.filter_cons_of_pos _ (fun u => Target.check_collision u p)
            t rest hcol,
          @List.filter_cons_of_neg _ (fun u => ! Target.check_collision u p)
            t rest (by simp [hcol])]
      refine ⟨by rw [ih1], ?_, ?_, ?_, ?_, ?_⟩
      · rw [ih2]
        show s.score + t.points + _ = _
        rw [List.map_cons, List.sum_cons]
        omega
      · rw [ih3]
        show (s.shockwaves ++ [shockwave_of (pyInt t.x) (pyInt t.y) t.color]) ++ _ = _
        rw [List.map_cons]
        simp
      · rw [ih4]
        show (s.tracers ++ [tracer_of p (pyInt t.x, pyInt t.y)]) ++ _ = _
        rw [List.map_cons]
        simp
      · rw [ih5]
        show (s.sounds ++ [SoundKey.hit]) ++ _ = _
        rw [List.map_cons]
        simp
      · rw [ih6]
        show (s.explosions ++
          ([⟨(supply.headD []).map
            (mk_particle (pyInt t.x) (pyInt t.y) t.color)⟩] :
              List Explosion)).length + _ = _
        simp only [List.length_append, List.length_cons, List.length_nil]
        omega
    · rw [if_neg hcol]
      have hs2 : s.targets = (acc ++ [t]) ++ rest := by
        rw [hs, List.append_assoc]; rfl
      have hnd2 : ((acc ++ [t]) ++ rest).Nodup := by
        rw [List.append_assoc]; exact hnd
      obtain ⟨ih1, ih2, ih3, ih4, ih5, ih6⟩ := ih (acc ++ [t]) supply _ hs2 hnd2
      have hcolf : t.check_collision p = false := by
        revert hcol; cases t.check_collision p <;> simp
      rw [@List.filter_cons_of_neg _ (fun u => Target.check_collision u p)
            t rest (by simp [hcolf]),
          @List.filter_cons_of_pos _ (fun u => ! Target.check_collision u p)
            t rest (by simp [hcolf])]
      refine ⟨?_, ih2, ih3, ih4, ih5, ih6⟩
      rw [ih1, List.append_assoc]
      rfl

/-- Claim C1 (amended): with an aim point present, every live target whose
circle contains the point is destroyed in a single `check_hit` call, in
the live set's insertion order: each hit target's points are added to the
score and it is removed, with one explosion, one hit cue, one shockwave,
and one tracer per destroyed target; targets not containing the point are
untouched. -/
theorem check_hit_all_overlapping (p : ℤ × ℤ)
    (supply : List (List ParticleDraw)) (s : EngineState)
    (hnd : s.targets.Nodup) :
    (check_hit (some p) supply s).targets =
      s.targets.filter (fun t => ! t.check_collision p) ∧
    (check_hit (some p) supply s).score =
      s.score +
        ((s.targets.filter (fun t => t.check_collision p)).map Target.points).sum ∧
    (check_hit (some p) supply s).shockwaves =
      s.shockwaves ++ (s.targets.filter (fun t => t.check_collision p)).map
        (fun t => shockwave_of (pyInt t.x) (pyInt t.y) t.color) ∧
    (check_hit (some p) supply s).tracers =
      s.tracers ++ (s.targets.filter (fun t => t.check_collision p)).map
        (fun t => tracer_of p (pyInt t.x, pyInt t.y)) ∧
    (check_hit (some p) supply s).sounds =
      s.sounds ++ (s.targets.filter (fun t => t.check_collision p)).map
        (fun _ => SoundKey.hit) ∧
    (check_hit (some p) supply s).explosions.length =
      s.explosions.length +
        (s.targets.filter (fun t => t.check_collision p)).length := by
  have h := check_hit_loop_spec p s.targets [] supply s rfl (by simpa using hnd)
  simpa [check_hit] using h

/-- A second target overlapping `sample_target`: a small red target at the
same centre. -/
def overlap_target : Target :=
  Target.init 100 100 TargetType.small 1280 720 1 1 1 0 0 0

/-- The base state with two overlapping live targets, both containing the
point (100, 100). -/
def overlap_state : EngineState :=
  { base_state with targets := [sample_target, overlap_target] }

set_option maxRecDepth 10000 in
/-- Counterexample to C1: with two overlapping targets both containing the
aim point, a single `check_hit` call destroys BOTH of them and scores
both (10 + 30 points), not just the first in insertion order. -/
theorem check_hit_counterexample :
    sample_target.check_collision (100, 100) = true ∧
    overlap_target.check_collision (100, 100) = true ∧
    (check_hit (some (100, 100)) [] overlap_state).targets = [] ∧
    (check_hit (some (100, 100)) [] overlap_state).score =
      overlap_state.score + 40 ∧
    ¬ (check_hit (some (100, 100)) [] overlap_state).targets.length = 1 := by
  with_unfolding_all decide

set_option maxRecDepth 10000 in
/-- Witness for the amended C1 at the concrete two-target overlap state. -/
theorem check_hit_all_overlapping_witness :
    overlap_state.targets.Nodup ∧
    (check_hit (some (100, 100)) [] overlap_state).targets =
      overlap_state.targets.filter
        (fun t => ! t.check_collision (100, 100)) ∧
    (check_hit (some (100, 100)) [] overlap_state).score =
      overlap_state.score +
        ((overlap_state.targets.filter
          (fun t => t.check_collision (100, 100))).map Target.points).sum :=
  ⟨by with_unfolding_all decide,
   (check_hit_all_overlapping (100, 100) [] overlap_state
     (by with_unfolding_all decide)).1,
   (check_hit_all_overlapping (100, 100) [] overlap_state
     (by with_unfolding_all decide)).2.1⟩

end GestureShooter
